import Mathlib

/-!
Verification of `flem-serial-rs` (`src/lib.rs`): a host-side serial
transport that connects to a serial port, spawns a listener thread that
feeds received bytes into a frame assembler, and sends packets.

The embedding is parametric in the environment: the `serialport` crate
(port enumeration, opening, cloning, I/O) and the `flem` crate (the frame
assembler, `flem::Packet`) are external collaborators, so they appear as
parameters (`SerialEnv`, `TxEnv`, `Assembler`).  A Rust panic (from
`unwrap` / `expect`) is modelled by an explicit `fault` outcome carrying
the panic message.
-/

set_option autoImplicit false

namespace FlemSerialRs

/-- The error enum `HostSerialPortErrors` of `src/lib.rs` lines 16-20. -/
inductive HostSerialPortErrors where
  | NoDeviceFoundByThatName
  | MultipleDevicesFoundByThatName
  | ErrorConnectingToDevice
  deriving DecidableEq, Repr

/-- `serialport::SerialPortInfo`, restricted to the only field the code
reads: `port_name`. -/
structure PortInfo where
  port_name : String
  deriving DecidableEq, Repr

/-- The ambient `serialport` crate behaviour visible to `connect` and
`list_serial_ports`, over an abstract type `Port` of opened port handles:
`available_ports` is the result of `serialport::available_ports()` at this
moment, `openPort name baud` the result of the builder chain ending in
`.open()` (`none` = the open call failed), and `try_clone p` the result of
`p.try_clone()` (`none` = cloning failed). -/
structure SerialEnv (Port : Type) where
  available_ports : Except Unit (List PortInfo)
  openPort : String → Nat → Option Port
  try_clone : Port → Option Port

/-- The fields of `struct FlemSerial` (lines 22-25): `tx_port` is the
stored `Option<Arc<Mutex<Box<dyn SerialPort>>>>`, `continue_listening`
the boolean inside the shared `Arc<Mutex<bool>>` shutdown flag. -/
structure FlemSerialState (Port : Type) where
  tx_port : Option Port
  continue_listening : Bool

/-- `FlemSerial::new` (lines 43-48). -/
def FlemSerialState.new (Port : Type) : FlemSerialState Port :=
  { tx_port := none, continue_listening := false }

/-- Outcome of `connect`: `ok` for `Ok(())`, `err` for `Err(e)`, and
`fault msg` for a Rust panic with message `msg` (from `.unwrap()` or
`.expect(msg)`). -/
inductive ConnectOutcome where
  | ok
  | err (e : HostSerialPortErrors)
  | fault (msg : String)
  deriving DecidableEq

/-- `FlemSerial::connect` (lines 71-102).  Re-enumerates ports with
`serialport::available_ports().unwrap()` (a panic when enumeration
fails), filters by exact name equality, and matches on the number of
matches: 0 yields `NoDeviceFoundByThatName`, exactly 1 attempts the open
(storing a `try_clone` of the opened port in `tx_port` on success —
`.expect(...)` panics when the clone fails; a failed open yields
`ErrorConnectingToDevice`), and 2 or more yield
`MultipleDevicesFoundByThatName`. -/
def connect {Port : Type} (env : SerialEnv Port) (s : FlemSerialState Port)
    (port_name : String) (baud : Nat) : ConnectOutcome × FlemSerialState Port :=
  match env.available_ports with
  | .error _ => (.fault "called unwrap on an Err value", s)
  | .ok ports =>
    let filtered_ports := ports.filter (fun port => port.port_name == port_name)
    match filtered_ports.length with
    | 0 => (.err .NoDeviceFoundByThatName, s)
    | 1 =>
      match env.openPort port_name baud with
      | some port =>
        match env.try_clone port with
        | some cloned => (.ok, { s with tx_port := some cloned })
        | none => (.fault "Couldnt clone serial port for tx_port", s)
      | none => (.err .ErrorConnectingToDevice, s)
    | _ + 2 => (.err .MultipleDevicesFoundByThatName, s)

/-- `FlemSerial::list_serial_ports` (lines 52-68): maps a successful
enumeration to the list of port names (possibly empty) and a failed
enumeration to `None`. -/
def list_serial_ports (enumResult : Except Unit (List PortInfo)) :
    Option (List String) :=
  match enumResult with
  | .ok valid_ports => some (valid_ports.map (fun port => port.port_name))
  | .error _ => none

/-- `FlemSerial::unlisten` (lines 180-182): stores `false` into the shared
`continue_listening` flag. -/
def unlisten {Port : Type} (s : FlemSerialState Port) : FlemSerialState Port :=
  { s with continue_listening := false }

/-- `FlemSerial::disconnect` (lines 104-108): calls `unlisten` and returns
`Some(())`; it touches nothing else (in particular `tx_port` is kept). -/
def disconnect {Port : Type} (s : FlemSerialState Port) :
    FlemSerialState Port × Option Unit :=
  (unlisten s, some ())

/-- Outcome of `send`, whose Rust type is `Option<()>`: `someUnit` for
`Some(())`, `noneVal` for `None`, `fault msg` for a panic. -/
inductive SendOutcome where
  | someUnit
  | noneVal
  | fault (msg : String)
  deriving DecidableEq

/-- The transmit-side environment for `send`: `lock p` is the result of
locking the mutex around the stored port (`none` = the lock failed),
`write_all p bytes` the result of `write_all(&packet.bytes())`, and
`flush p` the result of `flush()`. -/
structure TxEnv (Port : Type) where
  lock : Port → Option Port
  write_all : Port → List Nat → Except Unit Unit
  flush : Port → Except Unit Unit

/-- `FlemSerial::send` (lines 184-213), with `packetBytes` standing for
`packet.bytes()`.  An absent `tx_port`, a failed lock, or a failed
`write_all` each return `None`; after a successful `write_all` the code
runs `flush().unwrap()`, so a flush failure is a panic, and a successful
flush returns `Some(())`. -/
def send {Port : Type} (env : TxEnv Port) (s : FlemSerialState Port)
    (packetBytes : List Nat) : SendOutcome :=
  match s.tx_port with
  | some mutex_ref =>
    match env.lock mutex_ref with
    | some port =>
      match env.write_all port packetBytes with
      | .ok _ =>
        match env.flush port with
        | .ok _ => .someUnit
        | .error _ => .fault "called unwrap on an Err value"
      | .error _ => .noneVal
    | none => .noneVal
  | none => .noneVal

/-- The `flem::Status` values that `listen` distinguishes (lines 147-159):
`PacketReceived`, `PacketBuilding`, `HeaderBytesNotFound`, and one value
standing for every other variant, all of which the wildcard arm treats
alike. -/
inductive Status where
  | PacketReceived
  | PacketBuilding
  | HeaderBytesNotFound
  | OtherStatus
  deriving DecidableEq, Repr

/-- The frame-assembler interface of the `flem` crate that the listener
uses, over an abstract state type `σ` (the `flem::Packet<T>` being built):
`add_byte s b` returns the updated packet state and the reported status,
`reset_lazy s` discards the partial frame state. -/
structure Assembler (σ : Type) where
  add_byte : σ → Nat → σ × Status
  reset_lazy : σ → σ

/-- The inner per-byte loop of the listener thread (lines 145-161): feed
each received byte to the assembler in order; on `PacketReceived` push the
completed packet (`rx_packet.clone()`) onto the queue and reset the
assembler; on `PacketBuilding` do nothing; on `HeaderBytesNotFound` or any
other status reset the assembler and push nothing.  Returns the assembler
state and the queue after all bytes are consumed. -/
def processBytes {σ : Type} (asm : Assembler σ) :
    σ → List Nat → List σ → σ × List σ
  | s, [], q => (s, q)
  | s, b :: bs, q =>
    match asm.add_byte s b with
    | (s', .PacketReceived) => processBytes asm (asm.reset_lazy s') bs (q ++ [s'])
    | (s', .PacketBuilding) => processBytes asm s' bs q
    | (s', .HeaderBytesNotFound) => processBytes asm (asm.reset_lazy s') bs q
    | (s', .OtherStatus) => processBytes asm (asm.reset_lazy s') bs q

/-- A byte list is a valid frame from assembler state `s` when feeding it
byte by byte reports `PacketBuilding` on every byte but the last and
`PacketReceived` on the last; the result is the completed packet state
(`none` when the list is not such a frame). -/
def feedFrame {σ : Type} (asm : Assembler σ) : σ → List Nat → Option σ
  | _, [] => none
  | s, b :: bs =>
    match asm.add_byte s b, bs with
    | (s', .PacketReceived), [] => some s'
    | (_, _), [] => none
    | (s', .PacketBuilding), _ :: _ => feedFrame asm s' bs
    | (_, _), _ :: _ => none

/-- One `local_rx_port.read(&mut rx_buffer)` outcome in the listener loop:
an error, or `Ok` with the bytes placed in the buffer (`bytes.length` is
the returned `bytes_to_read`). -/
inductive ReadResult where
  | err
  | ok (bytes : List Nat)

/-- One iteration body of the listener loop (lines 138-168): a read error
is ignored (retry), a zero-byte read only sleeps, and a read with bytes
runs the per-byte loop. -/
def listenIter {σ : Type} (asm : Assembler σ) (s : σ) (q : List σ) :
    ReadResult → σ × List σ
  | .err => (s, q)
  | .ok bytes => if bytes.length = 0 then (s, q) else processBytes asm s bytes q

/-- The listener `while` loop (lines 137-169) driven by a finite trace: at
each step the loop first observes the shared `continue_listening` flag
(the first component of the trace element) and exits when it is `false`;
otherwise it consumes that step of the trace.  Returns the assembler
state, the queue, and whether the loop has exited (`true` = it observed a
`false` flag; `false` = the trace ran out with the loop still running). -/
def listenRun {σ : Type} (asm : Assembler σ) :
    List (Bool × ReadResult) → σ → List σ → σ × List σ × Bool
  | [], s, q => (s, q, false)
  | (flag, r) :: rest, s, q =>
    if flag then
      match listenIter asm s q r with
      | (s', q') => listenRun asm rest s' q'
    else (s, q, true)

/-- Outcome of the sequential prefix of `FlemSerial::listen` (lines
114-131), up to the `thread::spawn`: `ok rx` means the flag was set and a
receive-side clone `rx` of the stored port was obtained for the new
thread; `fault msg` is a panic. -/
inductive ListenOutcome (Port : Type) where
  | ok (rx : Port)
  | fault (msg : String)

/-- The sequential prefix of `FlemSerial::listen` (lines 114-131): set
`continue_listening` to `true`, then `self.tx_port.as_mut().unwrap()` —
a panic when no port is stored — followed by
`try_clone().expect(..)` with a clone-failure message — a panic
when cloning fails.  The spawned thread body is `listenRun`. -/
def listen_start {Port : Type} (env : SerialEnv Port) (s : FlemSerialState Port) :
    FlemSerialState Port × ListenOutcome Port :=
  let s1 := { s with continue_listening := true }
  match s1.tx_port with
  | none => (s1, .fault "called unwrap on a None value")
  | some port =>
    match env.try_clone port with
    | none => (s1, .fault "Couldnt clone serial port for rx_port")
    | some rx => (s1, .ok rx)

/-- A concrete two-byte-frame assembler instance used to witness the
assembler-parametric theorems: state is the list of bytes of the frame
being built; a frame is a header byte `170` followed by one payload
byte. -/
def demoAsm : Assembler (List Nat) where
  add_byte s b :=
    if s.length = 0 then
      (s ++ [b], if b = 170 then .PacketBuilding else .HeaderBytesNotFound)
    else (s ++ [b], .PacketReceived)
  reset_lazy _ := []

/-- Claim C1: after a successful re-enumeration, `connect` returns
`NoDeviceFoundByThatName` when zero enumerated ports match the requested
name exactly, `MultipleDevicesFoundByThatName` when two or more match,
and `ErrorConnectingToDevice` when exactly one matches but the open call
fails; these outcomes are mutually exclusive (the three error values are
pairwise distinct, and the three conditions are disjoint). -/
theorem connect_error_cases {Port : Type} (env : SerialEnv Port)
    (s : FlemSerialState Port) (name : String) (baud : Nat) (ports : List PortInfo)
    (henum : env.available_ports = .ok ports) :
    ((ports.filter (fun p => p.port_name == name)).length = 0 →
      (connect env s name baud).1 = .err .NoDeviceFoundByThatName) ∧
    (2 ≤ (ports.filter (fun p => p.port_name == name)).length →
      (connect env s name baud).1 = .err .MultipleDevicesFoundByThatName) ∧
    ((ports.filter (fun p => p.port_name == name)).length = 1 →
      env.openPort name baud = none →
      (connect env s name baud).1 = .err .ErrorConnectingToDevice) ∧
    (HostSerialPortErrors.NoDeviceFoundByThatName ≠
        HostSerialPortErrors.MultipleDevicesFoundByThatName ∧
      HostSerialPortErrors.NoDeviceFoundByThatName ≠
        HostSerialPortErrors.ErrorConnectingToDevice ∧
      HostSerialPortErrors.MultipleDevicesFoundByThatName ≠
        HostSerialPortErrors.ErrorConnectingToDevice) := by
  refine ⟨fun h0 => ?_, fun h2 => ?_, fun h1 hopen => ?_, by decide⟩ <;>
    simp only [connect, henum]
  · rw [h0]
  · obtain ⟨k, hk⟩ : ∃ k, (ports.filter (fun p => p.port_name == name)).length = k + 2 :=
      ⟨(ports.filter (fun p => p.port_name == name)).length - 2, by omega⟩
    rw [hk]
  · rw [h1, hopen]

/-- Claim C1 witness: a single matching port whose open fails yields
`ErrorConnectingToDevice`. -/
theorem connect_error_cases_witness :
    (connect (⟨Except.ok [⟨"a"⟩], fun _ _ => none, fun _ => none⟩ : SerialEnv Unit)
        (FlemSerialState.new Unit) "a" 9600).1 = .err .ErrorConnectingToDevice :=
  (connect_error_cases _ _ _ _ _ rfl).2.2.1 (by decide) rfl

/-- Claim C2 counterexample: when the re-enumeration performed at connect
time fails, `connect` does not report a declared error value — it faults
(the code calls `serialport::available_ports().unwrap()`). -/
theorem connect_enum_failure_faults :
    (connect (⟨Except.error (), fun _ _ => none, fun _ => none⟩ : SerialEnv Unit)
        (FlemSerialState.new Unit) "a" 9600).1
      = .fault "called unwrap on an Err value" := rfl

/-- Claim C2 (amended): when the re-enumeration at connect time succeeds
and handle duplication always succeeds, `connect` never faults: every
failure is reported as one of the declared error values.  (A failed
re-enumeration or a failed `try_clone` makes `connect` panic.) -/
theorem connect_no_fault_when_enum_ok {Port : Type} (env : SerialEnv Port)
    (s : FlemSerialState Port) (name : String) (baud : Nat) (ports : List PortInfo)
    (henum : env.available_ports = .ok ports)
    (hclone : ∀ p : Port, (env.try_clone p).isSome) :
    ∀ msg, (connect env s name baud).1 ≠ .fault msg := by
  intro msg
  simp only [connect, henum]
  rcases hlen : (ports.filter (fun p => p.port_name == name)).length with _ | _ | k <;>
    rw [hlen]
  · simp
  · rcases hopen : env.openPort name baud with _ | p
    · simp
    · rcases hc : env.try_clone p with _ | c
      · have hp := hclone p
        rw [hc] at hp
        simp at hp
      · simp [hc]
  · simp

/-- Claim C2 witness for the amended theorem: with a successful (empty)
enumeration and an always-succeeding clone, the outcome is not a fault. -/
theorem connect_no_fault_when_enum_ok_witness :
    (connect (⟨Except.ok [], fun _ _ => none, fun p => some p⟩ : SerialEnv Unit)
        (FlemSerialState.new Unit) "a" 9600).1 ≠ .fault "boom" :=
  connect_no_fault_when_enum_ok
    (⟨Except.ok [], fun _ _ => none, fun p => some p⟩ : SerialEnv Unit)
    (FlemSerialState.new Unit) "a" 9600 [] rfl (fun _ => rfl) "boom"

/-- Claim C3 counterexample: with exactly one matching port whose open
succeeds but whose `try_clone` fails, `connect` faults (the `.expect` on
`try_clone` panics) and in particular does not return
`ErrorConnectingToDevice`. -/
theorem connect_clone_failure_not_open_error :
    (connect (⟨Except.ok [⟨"a"⟩], fun _ _ => some (), fun _ => none⟩ : SerialEnv Unit)
        (FlemSerialState.new Unit) "a" 115200).1
        = .fault "Couldnt clone serial port for tx_port" ∧
    (connect (⟨Except.ok [⟨"a"⟩], fun _ _ => some (), fun _ => none⟩ : SerialEnv Unit)
        (FlemSerialState.new Unit) "a" 115200).1
        ≠ .err .ErrorConnectingToDevice :=
  ⟨rfl, by decide⟩

/-- Claim C3 (amended): when the single matching port opens successfully
but the handle cannot be duplicated, `connect` panics with the
clone-failure message instead of returning any declared error value. -/
theorem connect_clone_failure_faults {Port : Type} (env : SerialEnv Port)
    (s : FlemSerialState Port) (name : String) (baud : Nat) (ports : List PortInfo)
    (port : Port)
    (henum : env.available_ports = .ok ports)
    (hone : (ports.filter (fun p => p.port_name == name)).length = 1)
    (hopen : env.openPort name baud = some port)
    (hclone : env.try_clone port = none) :
    (connect env s name baud).1 = .fault "Couldnt clone serial port for tx_port" := by
  simp only [connect, henum]
  rw [hone, hopen]
  simp [hclone]

/-- Claim C3 witness for the amended theorem. -/
theorem connect_clone_failure_faults_witness :
    (connect (⟨Except.ok [⟨"b"⟩], fun _ _ => some (), fun _ => none⟩ : SerialEnv Unit)
        (FlemSerialState.new Unit) "b" 9600).1
      = .fault "Couldnt clone serial port for tx_port" :=
  connect_clone_failure_faults _ _ _ _ _ () rfl (by decide) rfl rfl

/-- Claim C6 (code-bug exhibit): in a connected state where `write_all`
succeeds and `flush` fails, `send` faults — the code runs
`flush().unwrap()`, so the flush failure panics instead of being reported
as the send-error value `None`. -/
theorem send_flush_failure_faults :
    send (⟨fun p => some p, fun _ _ => .ok (), fun _ => .error ()⟩ : TxEnv Unit)
        ({ tx_port := some (), continue_listening := false } : FlemSerialState Unit)
        [1, 2, 3]
      = .fault "called unwrap on an Err value" := rfl

/-- Claim C7 counterexample: `disconnect` does not drop the stored
transmit handle — after `disconnect` the `tx_port` field still holds the
port. -/
theorem disconnect_keeps_tx_port :
    ((disconnect ({ tx_port := some (), continue_listening := true }
          : FlemSerialState Unit)).1.tx_port = some ()) ∧
    ((disconnect ({ tx_port := some (), continue_listening := true }
          : FlemSerialState Unit)).1.tx_port ≠ none) :=
  ⟨rfl, by decide⟩

/-- Claim C7 (amended): `disconnect` requests listener stop by clearing
the shutdown flag and returns `Some(())`; it retains the stored transmit
handle (the handle is not dropped); and it is idempotent — a second call
is a no-fault no-op yielding the same state and the same `Some(())`. -/
theorem disconnect_clears_flag_idempotent {Port : Type} (s : FlemSerialState Port) :
    (disconnect s).1.continue_listening = false ∧
    (disconnect s).1.tx_port = s.tx_port ∧
    (disconnect s).2 = some () ∧
    disconnect (disconnect s).1 = disconnect s :=
  ⟨rfl, rfl, rfl, rfl⟩

/-- Claim C9: `list_serial_ports` returns `None` exactly when enumeration
itself fails, and on success returns `Some` of the enumerated names —
possibly the empty list — so "enumeration failed" and "no devices
present" are distinct outcomes. -/
theorem list_serial_ports_none_iff (r : Except Unit (List PortInfo)) :
    (list_serial_ports r = none ↔ r = .error ()) ∧
    (∀ ports, r = .ok ports →
      list_serial_ports r = some (ports.map (fun port => port.port_name))) := by
  cases r <;> simp [list_serial_ports]

/-- Claim C9 witness: a successful enumeration with one device maps to
`Some` of its name, and the failed enumeration maps to `None`. -/
theorem list_serial_ports_none_iff_witness :
    list_serial_ports (Except.ok [⟨"COM1"⟩]) = some ["COM1"] ∧
    list_serial_ports (Except.error ()) = none :=
  ⟨(list_serial_ports_none_iff _).2 _ rfl, (list_serial_ports_none_iff _).1.mpr rfl⟩

/-- Claim C10: on a state whose stored transmit port is absent (no prior
successful `connect`), `listen` faults — it unwraps the absent port —
while `send` on the same state returns the failure value `None` without
faulting. -/
theorem listen_faults_send_none_when_unconnected {Port : Type}
    (env : SerialEnv Port) (tx : TxEnv Port) (s : FlemSerialState Port)
    (packetBytes : List Nat) (h : s.tx_port = none) :
    (listen_start env s).2 = .fault "called unwrap on a None value" ∧
    send tx s packetBytes = .noneVal := by
  constructor
  · simp only [listen_start, h]
  · simp only [send, h]

/-- Claim C10 witness: the fresh state has no stored port; `listen`
faults and `send` returns `None` there. -/
theorem listen_faults_send_none_when_unconnected_witness :
    (listen_start (⟨Except.ok [], fun _ _ => none, fun p => some p⟩ : SerialEnv Unit)
        (FlemSerialState.new Unit)).2 = .fault "called unwrap on a None value" ∧
    send (⟨fun p => some p, fun _ _ => .ok (), fun _ => .ok ()⟩ : TxEnv Unit)
        (FlemSerialState.new Unit) [1, 2] = .noneVal :=
  listen_faults_send_none_when_unconnected _ _ _ _ rfl

/-- Feeding one valid frame, the per-byte loop pushes exactly its
completed packet and continues on the rest from the reset assembler. -/
theorem processBytes_frame {σ : Type} (asm : Assembler σ) (bs : List Nat) :
    ∀ (s sf : σ) (rest : List Nat) (q : List σ),
      feedFrame asm s bs = some sf →
      processBytes asm s (bs ++ rest) q
        = processBytes asm (asm.reset_lazy sf) rest (q ++ [sf]) := by
  induction bs with
  | nil =>
    intro s sf rest q h
    simp [feedFrame] at h
  | cons b bs ih =>
    intro s sf rest q h
    simp only [feedFrame] at h
    rcases habs : asm.add_byte s b with ⟨s', st⟩
    rw [habs] at h
    rw [List.cons_append]
    cases bs with
    | nil =>
      cases st <;> simp at h
      subst h
      simp [processBytes, habs]
    | cons c cs =>
      cases st <;> simp at h
      simp only [processBytes, habs]
      exact ih s' sf rest q h

/-- When resetting the assembler restores the fresh state, the per-byte
loop maps the concatenation of valid frames to exactly their completed
packets, appended in order. -/
theorem processBytes_frames {σ : Type} (asm : Assembler σ) (init : σ)
    (hreset : ∀ s, asm.reset_lazy s = init)
    (frames : List (List Nat)) (finals : List σ)
    (hvalid : List.Forall₂ (fun f sf => feedFrame asm init f = some sf) frames finals) :
    ∀ q : List σ, processBytes asm init frames.flatten q = (init, q ++ finals) := by
  induction hvalid with
  | nil => intro q; simp [processBytes]
  | cons hfd _ ih =>
    intro q
    rw [List.flatten_cons, processBytes_frame asm _ _ _ _ _ hfd, hreset, ih]
    simp

/-- Claim C4: starting from a fresh assembler (and an assembler whose
reset restores the fresh state), a delivered byte sequence that is
exactly the concatenation of K valid frames makes the listener loop body
push exactly K completed packets onto the queue, in frame order — the
bytes being fed to the assembler one at a time, in order, with a reset
after each completed frame (this is how `processBytes` is defined). -/
theorem listen_emits_k_packets {σ : Type} (asm : Assembler σ) (init : σ)
    (hreset : ∀ s, asm.reset_lazy s = init)
    (frames : List (List Nat)) (finals : List σ) (K : Nat)
    (hvalid : List.Forall₂ (fun f sf => feedFrame asm init f = some sf) frames finals)
    (hK : frames.length = K) :
    (processBytes asm init frames.flatten []).2 = finals ∧ finals.length = K := by
  constructor
  · rw [processBytes_frames asm init hreset frames finals hvalid []]
    simp
  · rw [← hK, List.Forall₂.length_eq hvalid]

/-- Claim C4 witness: two concatenated two-byte frames yield exactly the
two completed packets, in order. -/
theorem listen_emits_k_packets_witness :
    (processBytes demoAsm [] ([[170, 1], [170, 2]] : List (List Nat)).flatten []).2
        = [[170, 1], [170, 2]] ∧
      ([[170, 1], [170, 2]] : List (List Nat)).length = 2 :=
  listen_emits_k_packets demoAsm [] (fun _ => rfl) [[170, 1], [170, 2]]
    [[170, 1], [170, 2]] 2
    (List.Forall₂.cons (by decide) (List.Forall₂.cons (by decide) List.Forall₂.nil))
    rfl

/-- Claim C5: a byte on which the assembler reports neither
`PacketBuilding` nor `PacketReceived` makes the listener loop body reset
the assembler and push nothing — no error value reaches the queue — and a
valid frame arriving afterwards is still emitted. -/
theorem framing_error_drops_and_resyncs {σ : Type} (asm : Assembler σ) (init : σ)
    (hreset : ∀ s, asm.reset_lazy s = init)
    (b : Nat) (frame : List Nat) (sf : σ)
    (hbad : (asm.add_byte init b).2 ≠ .PacketBuilding ∧
      (asm.add_byte init b).2 ≠ .PacketReceived)
    (hframe : feedFrame asm init frame = some sf) :
    processBytes asm init [b] [] = (init, []) ∧
    processBytes asm init (b :: frame) [] = (init, [sf]) := by
  rcases habs : asm.add_byte init b with ⟨s', st⟩
  rw [habs] at hbad
  have hstep : ∀ rest q, processBytes asm init (b :: rest) q = processBytes asm init rest q := by
    intro rest q
    cases st <;> simp only [processBytes, habs, hreset]
    · exact absurd rfl hbad.2
    · exact absurd rfl hbad.1
  constructor
  · rw [hstep [] []]
    rfl
  · rw [hstep frame []]
    have := processBytes_frame asm frame init sf [] [] hframe
    rw [List.append_nil] at this
    rw [this, hreset]
    rfl

/-- Claim C5 witness: a garbage byte (`7`, rejected header) is dropped
silently and the following valid frame is still emitted. -/
theorem framing_error_drops_and_resyncs_witness :
    processBytes demoAsm [] [7] [] = ([], []) ∧
    processBytes demoAsm [] (7 :: [170, 3]) [] = ([], [[170, 3]]) :=
  framing_error_drops_and_resyncs demoAsm [] (fun _ => rfl) 7 [170, 3] [170, 3]
    ⟨by decide, by decide⟩ (by decide)

/-- A read error leaves the iteration state unchanged and the loop
running: a prefix of error reads under a true flag is transparent. -/
theorem listenRun_err_transparent {σ : Type} (asm : Assembler σ) (n : Nat)
    (trace : List (Bool × ReadResult)) : ∀ (s : σ) (q : List σ),
    listenRun asm (List.replicate n (true, .err) ++ trace) s q
      = listenRun asm trace s q := by
  induction n with
  | zero => intro s q; rfl
  | succ n ih =>
    intro s q
    rw [List.replicate_succ, List.cons_append]
    simp only [listenRun, listenIter, if_true]
    exact ih s q

/-- While every observed flag is true the loop never exits. -/
theorem listenRun_all_true {σ : Type} (asm : Assembler σ)
    (trace : List (Bool × ReadResult)) : ∀ (s : σ) (q : List σ),
    (∀ e ∈ trace, e.1 = true) → (listenRun asm trace s q).2.2 = false := by
  induction trace with
  | nil => intro s q _; rfl
  | cons e rest ih =>
    intro s q h
    rcases e with ⟨flag, r⟩
    have hf : flag = true := h _ (List.mem_cons_self _ _)
    subst hf
    simp only [listenRun, if_true]
    rcases listenIter asm s q r with ⟨s', q'⟩
    exact ih s' q' (fun e he => h e (List.mem_cons_of_mem _ he))

/-- If the loop exited, some step observed a false flag. -/
theorem listenRun_exit_reason {σ : Type} (asm : Assembler σ)
    (trace : List (Bool × ReadResult)) : ∀ (s : σ) (q : List σ),
    (listenRun asm trace s q).2.2 = true → ∃ e ∈ trace, e.1 = false := by
  induction trace with
  | nil => intro s q h; cases h
  | cons e rest ih =>
    intro s q h
    rcases e with ⟨flag, r⟩
    cases flag
    · exact ⟨(false, r), List.mem_cons_self _ _, rfl⟩
    · simp only [listenRun, if_true] at h
      rcases hit : listenIter asm s q r with ⟨s', q'⟩
      rw [hit] at h
      obtain ⟨e, he, hf⟩ := ih s' q' h
      exact ⟨e, List.mem_cons_of_mem _ he, hf⟩

/-- Claim C8: read errors never terminate the listener loop — any run of
consecutive error reads under a true flag leaves the loop state unchanged
so processing resumes exactly where it left off once reads succeed, the
loop is still running after any trace whose observed flags are all true,
and the loop exits only on observing a false shutdown flag. -/
theorem read_errors_never_terminate {σ : Type} (asm : Assembler σ) (s : σ)
    (q : List σ) (n : Nat) (trace : List (Bool × ReadResult)) :
    (listenRun asm (List.replicate n (true, .err) ++ trace) s q
      = listenRun asm trace s q) ∧
    ((∀ e ∈ trace, e.1 = true) → (listenRun asm trace s q).2.2 = false) ∧
    ((listenRun asm trace s q).2.2 = true → ∃ e ∈ trace, e.1 = false) :=
  ⟨listenRun_err_transparent asm n trace s q, listenRun_all_true asm trace s q,
    listenRun_exit_reason asm trace s q⟩

/-- Claim C8 witness: after a failed read followed by a successful one
under a true flag, the loop is still running. -/
theorem read_errors_never_terminate_witness :
    (listenRun demoAsm [(true, .err), (true, .ok [170, 1])] [] []).2.2 = false :=
  (read_errors_never_terminate demoAsm [] [] 0
    [(true, .err), (true, .ok [170, 1])]).2.1 (by decide)

end FlemSerialRs
